import Mathlib

/-!
Verification of the authentication core of `src/app.py` (a Flask
registration / login / logout application).

The embedding models:
* the `User` table (`id`, `username`, `password` hash columns) as a list of
  records plus an auto-increment counter;
* the per-client Flask `session` dict, of which only the key `user` is ever
  used, as an `Option String`;
* the four route handlers `register`, `login`, `dashboard`, `logout` as pure
  functions from (database, session, form data) to new state plus the
  flash-message / redirect response they produce;
* the werkzeug password-hash pair `generate_password_hash` /
  `check_password_hash` (third-party library code, not in the repository)
  from the spec: a salted PBKDF2-class hash whose output records method,
  salt and digest, verified by recomputing the digest with the stored salt.
-/

/-- Base of the digit encoding used by the modelled digest; any number
larger than the count of Unicode scalar values (`0x110000`) works. -/
def hashBase : Nat := 2097152

/-- Injective encoding of a character list as a natural number:
little-endian base-`hashBase`, each digit a character code shifted by one
so that the empty list is distinguishable. -/
def encodeChars : List Char → Nat
  | [] => 0
  | c :: t => (c.toNat + 1) + hashBase * encodeChars t

/-- Modelled from the spec: the PBKDF2-class digest computed by werkzeug
over the salt and the plaintext password (`src/app.py` line 75 uses
`method='pbkdf2:sha256'`).  The real digest is a one-way function; the
claims under verification only need that verification against a stored
hash succeeds exactly for the hashed password, so an injective executable
stand-in is used (hash collisions are idealized away, as the spec does). -/
def pbkdf2_digest (salt : Nat) (password : String) : Nat :=
  Nat.pair salt (encodeChars password.data)

/-- Modelled from the spec: the parsed form of a werkzeug password-hash
string `method$salt$hash`.  The serialization to a single `$`-separated
string is invertible and plays no role in the claims, so the hash is
represented by its three components. -/
structure PasswordHash where
  method : String
  salt : Nat
  digest : Nat
deriving DecidableEq

/-- Modelled from the spec: `generate_password_hash(password,
method='pbkdf2:sha256', salt_length=16)`.  The per-call random salt is an
explicit argument (the caller's source of randomness). -/
def generate_password_hash (password : String) (salt : Nat) : PasswordHash :=
  { method := "pbkdf2:sha256", salt := salt, digest := pbkdf2_digest salt password }

/-- Modelled from the spec: `check_password_hash(stored, password)`
recomputes the digest over the supplied plaintext using the salt and
method embedded in the stored hash and compares. -/
def check_password_hash (stored : PasswordHash) (password : String) : Bool :=
  stored.method == "pbkdf2:sha256" && stored.digest == pbkdf2_digest stored.salt password

theorem char_toNat_add_one_lt (c : Char) : c.toNat + 1 < hashBase := by
  have h := c.valid
  rcases h with h | ⟨_, h⟩ <;> simp [Char.toNat, hashBase] <;> omega

theorem encodeChars_injective (l1 : List Char) :
    ∀ l2 : List Char, encodeChars l1 = encodeChars l2 → l1 = l2 := by
  induction l1 with
  | nil =>
    intro l2 h
    cases l2 with
    | nil => rfl
    | cons c t =>
      exfalso
      simp only [encodeChars] at h
      omega
  | cons c t ih =>
    intro l2 h
    cases l2 with
    | nil =>
      exfalso
      simp only [encodeChars] at h
      omega
    | cons c2 t2 =>
      simp only [encodeChars] at h
      have hc := char_toNat_add_one_lt c
      have hc2 := char_toNat_add_one_lt c2
      have hb : 0 < hashBase := by decide
      have hmod : c.toNat = c2.toNat := by
        have h1 := congrArg (fun x => x % hashBase) h
        simp only [Nat.add_mul_mod_self_left] at h1
        rw [Nat.mod_eq_of_lt hc, Nat.mod_eq_of_lt hc2] at h1
        omega
      have hdiv : encodeChars t = encodeChars t2 := by
        have h1 := congrArg (fun x => x / hashBase) h
        simp only [Nat.add_mul_div_left _ _ hb] at h1
        rw [Nat.div_eq_of_lt hc, Nat.div_eq_of_lt hc2] at h1
        omega
      have hchar : c = c2 := by
        calc c = Char.ofNat c.toNat := (Char.ofNat_toNat c).symm
        _ = Char.ofNat c2.toNat := by rw [hmod]
        _ = c2 := Char.ofNat_toNat c2
      rw [hchar, ih t2 hdiv]

theorem string_of_data_eq {s t : String} (h : s.data = t.data) : s = t := by
  cases s
  cases t
  exact congrArg String.mk h

theorem check_generate_self (password : String) (salt : Nat) :
    check_password_hash (generate_password_hash password salt) password = true := by
  simp [check_password_hash, generate_password_hash]

theorem check_generate_ne (p q : String) (salt : Nat) (h : q ≠ p) :
    check_password_hash (generate_password_hash p salt) q = false := by
  have hne : pbkdf2_digest salt p ≠ pbkdf2_digest salt q := by
    unfold pbkdf2_digest
    rw [Ne, Nat.pair_eq_pair]
    rintro ⟨-, h2⟩
    exact h (string_of_data_eq (encodeChars_injective _ _ h2.symm))

  simp [check_password_hash, generate_password_hash, hne]

/-- Per-client Flask `session` dict: only the key `user` is ever used, so
the session is the optional value stored under it.  `none` is the
anonymous state, `some u` the state authenticated as `u`. -/
abbrev Session := Option String

/-- The `User` model of `src/app.py` lines 51-54: auto-increment integer
primary key, username column, password column holding the hash. -/
structure User where
  id : Nat
  username : String
  password : PasswordHash
deriving DecidableEq

/-- The SQLite database backing the app: the rows of the `User` table in
insertion order, plus the next auto-increment id. -/
structure DB where
  users : List User
  nextId : Nat
deriving DecidableEq

/-- The freshly created database (`db.create_all()`): no rows; SQLite
assigns 1 to the first row. -/
def DB.empty : DB := { users := [], nextId := 1 }

/-- `User.query.filter_by(username=username).first()`: the first row whose
username column equals the argument, if any. -/
def find_by_username (db : DB) (username : String) : Option User :=
  (db.users.filter (fun u => u.username == username)).head?

/-- Outcome of the `register` POST handler: either the duplicate-username
flash plus redirect back to the registration form, or the success flash
plus redirect to the login page. -/
inductive RegisterResult where
  | failure (flash : String) (redirectTo : String)
  | success (flash : String) (redirectTo : String)
deriving DecidableEq

/-- `register` POST handler (`src/app.py` lines 62-85): reject a taken
username, otherwise hash the password and insert a new row.  The salt
drawn by `generate_password_hash` is an explicit argument. -/
def register (db : DB) (username password : String) (salt : Nat) : DB × RegisterResult :=
  match find_by_username db username with
  | some _ =>
      (db, RegisterResult.failure "Username already taken. Please choose another." "register")
  | none =>
      let hashed_password := generate_password_hash password salt
      let new_user : User := { id := db.nextId, username := username, password := hashed_password }
      ({ users := db.users ++ [new_user], nextId := db.nextId + 1 },
       RegisterResult.success "Registration successful! You can now log in." "home")

/-- Outcome of the `login` POST handler: redirect to the dashboard on
success, or the invalid-credentials flash plus redirect to the login
page. -/
inductive LoginResult where
  | success (redirectTo : String)
  | failure (flash : String) (redirectTo : String)
deriving DecidableEq

/-- `login` POST handler (`src/app.py` lines 88-102): look the user up,
verify the hash, and on success store the username in the session. -/
def login (db : DB) (sess : Session) (username password : String) : Session × LoginResult :=
  match find_by_username db username with
  | some user =>
      if check_password_hash user.password password then
        (some user.username, LoginResult.success "dashboard")
      else
        (sess, LoginResult.failure "Invalid username or password." "home")
  | none => (sess, LoginResult.failure "Invalid username or password." "home")

/-- Outcome of the `dashboard` handler: redirect to the login page when
anonymous, otherwise render the dashboard for the session's username. -/
inductive DashboardResult where
  | redirect (target : String)
  | render (template : String) (username : String)
deriving DecidableEq

/-- `dashboard` handler (`src/app.py` lines 105-109). -/
def dashboard (sess : Session) : DashboardResult :=
  match sess with
  | none => DashboardResult.redirect "home"
  | some u => DashboardResult.render "dashboard.html" u

/-- Flash-plus-redirect response of the `logout` handler. -/
structure FlashRedirect where
  flash : String
  redirectTo : String
deriving DecidableEq

/-- `logout` POST handler (`src/app.py` lines 112-116):
`session.pop('user', None)` removes the association if present and is
silent otherwise. -/
def logout (_sess : Session) : Session × FlashRedirect :=
  (none, { flash := "You have been logged out.", redirectTo := "home" })

/-- The spec's `current_user(session)` probe: the username associated to
the session, i.e. `session.get('user')` (the value `dashboard` gates on). -/
def current_user (sess : Session) : Option String := sess

/-- Full server state: the database plus one client's session. -/
structure AppState where
  db : DB
  sess : Session
deriving DecidableEq

/-- Externally triggered actions that map onto the handlers.  A `register`
action carries the salt that `generate_password_hash` draws for that
call. -/
inductive AppAction where
  | register (username password : String) (salt : Nat)
  | login (username password : String)
  | logout
  | dashboard
deriving DecidableEq

/-- Initial state: empty database, anonymous session. -/
def AppState.init : AppState := { db := DB.empty, sess := none }

/-- One request: dispatch an action to its handler and keep the state it
returns.  `dashboard` is read-only. -/
def step (s : AppState) : AppAction → AppState
  | AppAction.register u p salt => { s with db := (register s.db u p salt).1 }
  | AppAction.login u p => { s with sess := (login s.db s.sess u p).1 }
  | AppAction.logout => { s with sess := (logout s.sess).1 }
  | AppAction.dashboard => s

/-- The state reached from the initial state by a sequence of requests. -/
def run (acts : List AppAction) : AppState := acts.foldl step AppState.init

/-- The username column of every row, in insertion order. -/
def usernames (db : DB) : List String := db.users.map User.username

theorem head?_eq_some_mem {α : Type} {l : List α} {a : α} (h : l.head? = some a) : a ∈ l := by
  cases l with
  | nil => simp at h
  | cons x xs =>
    simp only [List.head?_cons, Option.some.injEq] at h
    rw [← h]
    exact List.mem_cons_self x xs

theorem find_by_username_eq_none_iff (db : DB) (u : String) :
    find_by_username db u = none ↔ ∀ x ∈ db.users, x.username ≠ u := by
  simp [find_by_username, List.head?_eq_none_iff, List.filter_eq_nil_iff]

theorem find_by_username_spec (db : DB) (u : String) (user : User)
    (h : find_by_username db u = some user) : user ∈ db.users ∧ user.username = u := by
  unfold find_by_username at h
  have hmem := head?_eq_some_mem h
  rw [List.mem_filter] at hmem
  exact ⟨hmem.1, by simpa using hmem.2⟩

theorem find_by_username_append_fresh (db : DB) (u : String) (user : User) (n : Nat)
    (h : find_by_username db u = none) (hu : user.username = u) :
    find_by_username { users := db.users ++ [user], nextId := n } u = some user := by
  unfold find_by_username at *
  rw [List.head?_eq_none_iff] at h
  simp [List.filter_append, h, hu]

theorem find_by_username_append_other (db : DB) (u : String) (user : User) (n : Nat)
    (hne : user.username ≠ u) :
    find_by_username { users := db.users ++ [user], nextId := n } u = find_by_username db u := by
  unfold find_by_username
  simp [List.filter_append, hne]

theorem register_eq_of_fresh (db : DB) (u p : String) (salt : Nat)
    (h : find_by_username db u = none) :
    register db u p salt =
      ({ users := db.users ++
            [{ id := db.nextId, username := u, password := generate_password_hash p salt }],
         nextId := db.nextId + 1 },
       RegisterResult.success "Registration successful! You can now log in." "home") := by
  simp [register, h]

theorem register_eq_of_dup (db : DB) (u p : String) (salt : Nat) (user : User)
    (h : find_by_username db u = some user) :
    register db u p salt =
      (db, RegisterResult.failure "Username already taken. Please choose another." "register") := by
  simp [register, h]

theorem step_preserves_nodup (s : AppState) (a : AppAction)
    (h : (usernames s.db).Nodup) : (usernames (step s a).db).Nodup := by
  cases a with
  | register u p salt =>
    simp only [step]
    cases hf : find_by_username s.db u with
    | some user =>
      rw [register_eq_of_dup _ _ _ _ _ hf]
      exact h
    | none =>
      rw [register_eq_of_fresh _ _ _ _ hf]
      rw [find_by_username_eq_none_iff] at hf
      simp only [usernames, List.map_append, List.nodup_append] at *
      refine ⟨h, by simp, ?_⟩
      intro x hx hx2
      simp only [List.map_cons, List.map_nil, List.mem_singleton] at hx2
      rw [List.mem_map] at hx
      obtain ⟨y, hy, hyx⟩ := hx
      exact hf y hy (hyx.trans hx2)
  | login u p => simpa [step] using h
  | logout => simpa [step] using h
  | dashboard => simpa [step] using h

theorem foldl_step_nodup (acts : List AppAction) (s : AppState)
    (h : (usernames s.db).Nodup) : (usernames (acts.foldl step s).db).Nodup := by
  induction acts generalizing s with
  | nil => simpa using h
  | cons a rest ih => exact ih _ (step_preserves_nodup s a h)

/-- C1: for any (username, password) pair whose username is not yet
registered, `register` followed by `login` with the same pair succeeds,
and the resulting session is bound to that username: `current_user`
returns it. -/
theorem c1_register_then_authenticate (db : DB) (sess : Session) (u p : String) (salt : Nat)
    (h : find_by_username db u = none) :
    (register db u p salt).2 =
      RegisterResult.success "Registration successful! You can now log in." "home" ∧
    login (register db u p salt).1 sess u p = (some u, LoginResult.success "dashboard") ∧
    current_user (login (register db u p salt).1 sess u p).1 = some u := by
  rw [register_eq_of_fresh _ _ _ _ h]
  have hfind := find_by_username_append_fresh db u
      { id := db.nextId, username := u, password := generate_password_hash p salt }
      (db.nextId + 1) h rfl
  refine ⟨rfl, ?_, ?_⟩ <;>
    simp [login, hfind, check_generate_self, current_user]

/-- Witness for C1 at a concrete input. -/
theorem c1_witness :
    find_by_username DB.empty "alice" = none ∧
    login (register DB.empty "alice" "pw" 0).1 none "alice" "pw" =
      (some "alice", LoginResult.success "dashboard") :=
  ⟨by decide,
   (c1_register_then_authenticate DB.empty none "alice" "pw" 0 (by decide)).2.1⟩

/-- C2: a login with an unknown username and a login with a known username
whose hash verification fails produce the identical invalid-credentials
response, so the result does not distinguish the two failure causes. -/
theorem c2_invalid_credentials_indistinguishable (db : DB) (sess1 sess2 : Session)
    (u1 p1 u2 p2 : String) (user : User)
    (h1 : find_by_username db u1 = none)
    (h2 : find_by_username db u2 = some user)
    (h3 : check_password_hash user.password p2 = false) :
    login db sess1 u1 p1 =
      (sess1, LoginResult.failure "Invalid username or password." "home") ∧
    login db sess2 u2 p2 =
      (sess2, LoginResult.failure "Invalid username or password." "home") ∧
    (login db sess1 u1 p1).2 = (login db sess2 u2 p2).2 := by
  have e1 : login db sess1 u1 p1 =
      (sess1, LoginResult.failure "Invalid username or password." "home") := by
    simp [login, h1]
  have e2 : login db sess2 u2 p2 =
      (sess2, LoginResult.failure "Invalid username or password." "home") := by
    simp [login, h2, h3]
  exact ⟨e1, e2, by rw [e1, e2]⟩

/-- A one-user database used by the concrete witnesses. -/
def aliceUser : User := { id := 1, username := "alice", password := generate_password_hash "pw" 0 }

/-- A database holding only `aliceUser`. -/
def aliceDB : DB := { users := [aliceUser], nextId := 2 }

/-- Witness for C2 at a concrete input. -/
theorem c2_witness :
    login aliceDB none "bob" "x" =
      (none, LoginResult.failure "Invalid username or password." "home") ∧
    login aliceDB (some "carol") "alice" "wrong" =
      (some "carol", LoginResult.failure "Invalid username or password." "home") :=
  ⟨(c2_invalid_credentials_indistinguishable aliceDB none (some "carol") "bob" "x" "alice"
      "wrong" aliceUser (by decide) (by decide) (by decide)).1,
   (c2_invalid_credentials_indistinguishable aliceDB none (some "carol") "bob" "x" "alice"
      "wrong" aliceUser (by decide) (by decide) (by decide)).2.1⟩

/-- C3: a second `register` with an already-present username fails with
the duplicate-username response and leaves the database unchanged — no
overwrite of the original record's hash, no new record. -/
theorem c3_duplicate_register_rejected (db : DB) (u p2 : String) (salt : Nat) (user : User)
    (h : find_by_username db u = some user) :
    register db u p2 salt =
      (db, RegisterResult.failure "Username already taken. Please choose another." "register") ∧
    (register db u p2 salt).1.users = db.users :=
  ⟨register_eq_of_dup db u p2 salt user h,
   by rw [register_eq_of_dup db u p2 salt user h]⟩

/-- Witness for C3 at a concrete input. -/
theorem c3_witness :
    register aliceDB "alice" "other" 5 =
      (aliceDB,
       RegisterResult.failure "Username already taken. Please choose another." "register") :=
  (c3_duplicate_register_rejected aliceDB "alice" "other" 5 aliceUser (by decide)).1

/-- C4: in every state reachable from the empty database by requests no
two user records share a username, and only the `register` action writes
the database — `login`, `logout` and `dashboard` leave it unchanged. -/
theorem c4_unique_usernames_sole_writer (acts : List AppAction) (s : AppState) (u p : String) :
    (usernames (run acts).db).Nodup ∧
    (step s (AppAction.login u p)).db = s.db ∧
    (step s AppAction.logout).db = s.db ∧
    (step s AppAction.dashboard).db = s.db :=
  ⟨foldl_step_nodup acts AppState.init (by simp [AppState.init, DB.empty, usernames]),
   rfl, rfl, rfl⟩

/-- C5: a failed login leaves the session unchanged: an anonymous session
stays anonymous and an authenticated session keeps its username binding. -/
theorem c5_failed_login_preserves_session (db : DB) (sess : Session) (u p m r : String)
    (h : (login db sess u p).2 = LoginResult.failure m r) :
    (login db sess u p).1 = sess := by
  cases hf : find_by_username db u with
  | none => simp [login, hf]
  | some user =>
    cases hc : check_password_hash user.password p with
    | true =>
      exfalso
      simp [login, hf, hc] at h
    | false => simp [login, hf, hc]

/-- Witness for C5 at a concrete input. -/
theorem c5_witness :
    (login DB.empty (some "alice") "bob" "pw").2 =
      LoginResult.failure "Invalid username or password." "home" ∧
    (login DB.empty (some "alice") "bob" "pw").1 = some "alice" :=
  ⟨by decide,
   c5_failed_login_preserves_session DB.empty (some "alice") "bob" "pw"
     "Invalid username or password." "home" (by decide)⟩

/-- C6: the end-to-end scenario: from the empty database and an anonymous
session, registering alice/secret1 succeeds; logging in with the same pair
succeeds and `current_user` returns alice; after logout `current_user`
returns nothing; logging in with a wrong password fails with the
invalid-credentials response and `current_user` still returns nothing. -/
theorem c6_end_to_end_scenario :
    (register DB.empty "alice" "secret1" 0).2 =
      RegisterResult.success "Registration successful! You can now log in." "home" ∧
    (login (register DB.empty "alice" "secret1" 0).1 none "alice" "secret1").2 =
      LoginResult.success "dashboard" ∧
    current_user (login (register DB.empty "alice" "secret1" 0).1 none "alice" "secret1").1 =
      some "alice" ∧
    current_user
      (logout (login (register DB.empty "alice" "secret1" 0).1 none "alice" "secret1").1).1 =
      none ∧
    login (register DB.empty "alice" "secret1" 0).1
      (logout (login (register DB.empty "alice" "secret1" 0).1 none "alice" "secret1").1).1
      "alice" "wrong" =
      (none, LoginResult.failure "Invalid username or password." "home") ∧
    current_user
      (login (register DB.empty "alice" "secret1" 0).1
        (logout (login (register DB.empty "alice" "secret1" 0).1 none "alice" "secret1").1).1
        "alice" "wrong").1 = none := by
  decide

/-- C7: `logout` always clears the session-to-username association, is
idempotent, and on an already-anonymous session is a no-op: the state
stays anonymous and the handler produces the same normal (non-error)
response as always. -/
theorem c7_logout_idempotent :
    (logout none).1 = none ∧
    (∀ sess : Session, (logout sess).1 = none) ∧
    (∀ sess : Session, (logout (logout sess).1).1 = (logout sess).1) ∧
    (∀ sess : Session, logout sess = logout none) :=
  ⟨rfl, fun _ => rfl, fun _ => rfl, fun _ => rfl⟩

/-- C8: hashing is salted per call: registering the same password under
two different usernames with distinct salts stores two different hashes,
and verification of that password succeeds against both stored hashes. -/
theorem c8_salted_hashes_distinct (db : DB) (u1 u2 p : String) (s1 s2 : Nat)
    (h1 : find_by_username db u1 = none)
    (h2 : find_by_username (register db u1 p s1).1 u2 = none)
    (hu : u1 ≠ u2)
    (hs : s1 ≠ s2) :
    find_by_username (register (register db u1 p s1).1 u2 p s2).1 u1 =
      some { id := db.nextId, username := u1, password := generate_password_hash p s1 } ∧
    find_by_username (register (register db u1 p s1).1 u2 p s2).1 u2 =
      some { id := db.nextId + 1, username := u2, password := generate_password_hash p s2 } ∧
    generate_password_hash p s1 ≠ generate_password_hash p s2 ∧
    check_password_hash (generate_password_hash p s1) p = true ∧
    check_password_hash (generate_password_hash p s2) p = true := by
  have e1 := register_eq_of_fresh db u1 p s1 h1
  rw [e1] at h2 ⊢
  have e2 := register_eq_of_fresh _ u2 p s2 h2
  rw [e2]
  have hgen : generate_password_hash p s1 ≠ generate_password_hash p s2 := by
    intro he
    exact hs (by simpa [generate_password_hash] using congrArg PasswordHash.salt he)
  refine ⟨?_, ?_, hgen, check_generate_self p s1, check_generate_self p s2⟩
  · rw [find_by_username_append_other _ u1 _ _ (by simpa using fun he => hu he.symm)]
    exact find_by_username_append_fresh db u1 _ _ h1 rfl
  · exact find_by_username_append_fresh _ u2 _ _ h2 rfl

/-- Witness for C8 at a concrete input. -/
theorem c8_witness :
    generate_password_hash "pw" 0 ≠ generate_password_hash "pw" 1 ∧
    check_password_hash (generate_password_hash "pw" 0) "pw" = true ∧
    check_password_hash (generate_password_hash "pw" 1) "pw" = true :=
  ⟨(c8_salted_hashes_distinct DB.empty "alice" "bob" "pw" 0 1 (by decide) (by decide)
      (by decide) (by decide)).2.2.1,
   (c8_salted_hashes_distinct DB.empty "alice" "bob" "pw" 0 1 (by decide) (by decide)
      (by decide) (by decide)).2.2.2.1,
   (c8_salted_hashes_distinct DB.empty "alice" "bob" "pw" 0 1 (by decide) (by decide)
      (by decide) (by decide)).2.2.2.2⟩

/-- C9: the code performs no emptiness check on the submitted username:
from the empty database, registering the empty-string username succeeds
and the reachable store then holds a record whose username is empty,
contradicting the non-empty-username claim (the model's own comment says
usernames must be non-empty). -/
theorem c9_empty_username_registered :
    (register DB.empty "" "pw" 0).2 =
      RegisterResult.success "Registration successful! You can now log in." "home" ∧
    usernames (run [AppAction.register "" "pw" 0]).db = [""] := by
  decide

/-- C10: a successful login while the session is already authenticated
overwrites the existing binding: whatever username the session held
before, afterwards it is bound to the newly authenticated username. -/
theorem c10_login_overwrites_session (db : DB) (old u p : String) (user : User)
    (h : find_by_username db u = some user)
    (hc : check_password_hash user.password p = true) :
    login db (some old) u p = (some u, LoginResult.success "dashboard") := by
  have hu := (find_by_username_spec db u user h).2
  simp [login, h, hc, hu]

/-- Witness for C10 at a concrete input. -/
theorem c10_witness :
    login aliceDB (some "carol") "alice" "pw" =
      (some "alice", LoginResult.success "dashboard") :=
  c10_login_overwrites_session aliceDB "carol" "alice" "pw" aliceUser (by decide) (by decide)
